import Mathlib

/-!
Verification of the tic-tac-two distributed game server.

The development shallowly embeds the code of the repository:
* `server/game.js` (the pure game engine): `initialState`, `assignSeat`,
  `validateMove`, `applyMove`, `checkWinner`;
* `server/server.js` (the coordinator): the JOIN and MOVE websocket
  handlers with their watch/multi-exec (CAS) retry loops,
  `saveStateAndPublish`, `broadcastLocal`, the lazy pub/sub subscription
  callback with its origin filter, and the per-process connection registry.

Redis interactions are modelled by an environment (`Env`) supplying, per
retry attempt, the value read after `watch` and whether the `multi/exec`
commit succeeds; handlers return the messages sent to the requesting
connection, local broadcasts, published envelopes, and a trace of store
operations, from which the final store content is recovered by `applyTrace`.
-/

namespace TicTacTwo

/-- Seat labels, the strings "X" and "O" in the source. -/
inductive Seat where
  | X
  | O
deriving DecidableEq, Repr

/-- A board cell: `none` is the empty string `EMPTY`, `some s` a seat mark. -/
abbrev Cell := Option Seat

/-- The board, an array of rows of cells (`SIZE = 3` in the source). -/
abbrev Board := List (List Cell)

/-- Game status: "waiting" | "running" | "finished". -/
inductive Status where
  | waiting
  | running
  | finished
deriving DecidableEq, Repr

/-- A win/draw outcome; the `winner` field holds `"X" | "O" | "draw" | null`,
modelled as `Option Outcome`. -/
inductive Outcome where
  | seat (s : Seat)
  | draw
deriving DecidableEq, Repr

/-- A player identity `{ id, name }`. -/
structure Player where
  id : String
  name : String
deriving DecidableEq, Repr

/-- The room state record, the shape built by `initialState` in `game.js`.
`playersX`/`playersO` model the `players.X` / `players.O` fields. -/
structure GameState where
  gameId : String
  board : Board
  playersX : Option Player
  playersO : Option Player
  nextTurn : Seat
  status : Status
  winner : Option Outcome
  version : Nat
deriving DecidableEq, Repr

/-- `createEmptyBoard()`: a 3×3 grid of empty cells. -/
def createEmptyBoard : Board :=
  [[none, none, none], [none, none, none], [none, none, none]]

/-- `initialState(gameId)` from `game.js`. -/
def initialState (gameId : String) : GameState :=
  { gameId := gameId
    board := createEmptyBoard
    playersX := none
    playersO := none
    nextTurn := Seat.X
    status := Status.waiting
    winner := none
    version := 0 }

/-- `assignSeat(state, playerInfo)`: fill X first, then O (switching the
status from waiting to running), else throw "Game already has two players";
the version is incremented on success. -/
def assignSeat (s : GameState) (p : Player) : Except String GameState :=
  match s.playersX with
  | none => Except.ok { s with playersX := some p, version := s.version + 1 }
  | some _ =>
    match s.playersO with
    | none =>
      Except.ok { s with
        playersO := some p
        status := if s.status = Status.waiting then Status.running else s.status
        version := s.version + 1 }
    | some _ => Except.error "Game already has two players"

/-- `board[r][c]` with out-of-range reads yielding the empty cell
(the handlers only index in bounds). -/
def cellAt (b : Board) (r c : Nat) : Cell :=
  (b.getD r []).getD c none

/-- One line check from `checkWinner`: `line[0] && line[0]===line[1] &&
line[1]===line[2]` returns the common non-empty mark. -/
def lineCheck (l : List Cell) : Option Seat :=
  match l.getD 0 none, l.getD 1 none, l.getD 2 none with
  | some a, some b, some c => if a = b ∧ b = c then some a else none
  | _, _, _ => none

/-- Column `i` of the board, `[board[0][i], board[1][i], board[2][i]]`. -/
def columnOf (b : Board) (i : Nat) : List Cell :=
  [cellAt b 0 i, cellAt b 1 i, cellAt b 2 i]

/-- The `lines` array built by `checkWinner`: row i and column i for
i = 0,1,2, then the two diagonals, in source order. -/
def linesOf (b : Board) : List (List Cell) :=
  [b.getD 0 [], columnOf b 0,
   b.getD 1 [], columnOf b 1,
   b.getD 2 [], columnOf b 2,
   [cellAt b 0 0, cellAt b 1 1, cellAt b 2 2],
   [cellAt b 0 2, cellAt b 1 1, cellAt b 2 0]]

/-- Mark of the first winning line, per the scan of `lines` in `checkWinner`. -/
def firstWin : List (List Cell) → Option Seat
  | [] => none
  | l :: rest =>
    match lineCheck l with
    | some s => some s
    | none => firstWin rest

/-- `checkWinner(board)`: a winning seat, `"draw"` when no cell is empty,
otherwise `null`. -/
def checkWinner (b : Board) : Option Outcome :=
  match firstWin (linesOf b) with
  | some s => some (Outcome.seat s)
  | none =>
    if b.any (fun row => row.any (fun c => decide (c = none)))
    then none
    else some Outcome.draw

/-- `validateMove(state, playerSeat, row, col)`: `some msg` is the thrown
error, `none` means the move is valid. Checks in source order. -/
def validateMove (s : GameState) (playerSeat : Seat) (row col : Int) : Option String :=
  if s.status ≠ Status.running then some "Game is not running"
  else if playerSeat ≠ s.nextTurn then some "Not your turn"
  else if row < 0 ∨ 3 ≤ row ∨ col < 0 ∨ 3 ≤ col then some "Out of bounds"
  else if cellAt s.board row.toNat col.toNat ≠ none then some "Cell not empty"
  else none

/-- The other seat: `playerSeat === "X" ? "O" : "X"`. -/
def otherSeat : Seat → Seat
  | Seat.X => Seat.O
  | Seat.O => Seat.X

/-- Write cell `(r, c)` of the board. -/
def setCell (b : Board) (r c : Nat) (v : Cell) : Board :=
  b.set r ((b.getD r []).set c v)

/-- `applyMove(state, playerSeat, row, col)`: validate, mark the cell,
recompute the outcome, finish or flip the turn, increment the version. -/
def applyMove (s : GameState) (playerSeat : Seat) (row col : Int) :
    Except String GameState :=
  match validateMove s playerSeat row col with
  | some e => Except.error e
  | none =>
    let b := setCell s.board row.toNat col.toNat (some playerSeat)
    match checkWinner b with
    | some Outcome.draw =>
      Except.ok { s with board := b, status := Status.finished,
                         winner := some Outcome.draw, version := s.version + 1 }
    | some (Outcome.seat w) =>
      Except.ok { s with board := b, status := Status.finished,
                         winner := some (Outcome.seat w), version := s.version + 1 }
    | none =>
      Except.ok { s with board := b, nextTurn := otherSeat playerSeat,
                         version := s.version + 1 }

/-- Messages the server sends to a client connection (`S2C` in
`protocol.js`), with the payload fields the handlers fill in. -/
inductive S2CMsg where
  | assigned (seat : Seat) (name : String)
  | update (state : GameState)
  | error (message : String)
  | info (message : String)
deriving DecidableEq, Repr

/-- The change envelope published on the bus (`FED.STATE`):
`{ type, state, originId, eventId }`. -/
structure Envelope where
  type : String
  state : GameState
  originId : String
  eventId : String
deriving DecidableEq, Repr

/-- `FED.STATE` from protocol.js. -/
def FEDSTATE : String := "state"

/-- `gameKey(gameId)`. -/
def gameKey (gameId : String) : String := "tictac:game:" ++ gameId

/-- One Redis store operation issued by a handler. `txExec key v ok`
records a `multi().set(key, v).exec()` whose commit succeeded iff `ok`;
`rawSet` is an unconditional `kv.set` outside any transaction. -/
inductive StoreOp where
  | watch (key : String)
  | unwatch
  | txExec (key : String) (v : GameState) (ok : Bool)
  | rawSet (key : String) (v : GameState)
deriving DecidableEq, Repr

/-- Replay a trace against an initial store content for a key: a committed
`txExec` and a `rawSet` write the record, everything else leaves it. -/
def applyTrace (key : String) : Option GameState → List StoreOp → Option GameState
  | st, [] => st
  | st, StoreOp.txExec k v true :: rest =>
    applyTrace key (if k = key then some v else st) rest
  | st, StoreOp.rawSet k v :: rest =>
    applyTrace key (if k = key then some v else st) rest
  | st, _ :: rest => applyTrace key st rest

/-- The environment a handler runs in: the record read after the `watch`
of attempt `k` (`readAt k`), whether the `exec` of attempt `k` commits
(`commitOk k`), the pre-loop `loadState` read (`preRead`), and the
`randomUUID()` streams for player ids and event ids. -/
structure Env where
  preRead : Option GameState
  readAt : Nat → Option GameState
  commitOk : Nat → Bool
  freshId : Nat → String
  freshEvent : Nat → String

/-- Everything one handler invocation did: messages sent to the requesting
connection, `broadcastLocal` calls, bus publications, the store-operation
trace, and the state it committed, if any. -/
structure HandlerResult where
  sent : List S2CMsg := []
  broadcasts : List (String × S2CMsg) := []
  published : List Envelope := []
  trace : List StoreOp := []
  committed : Option GameState := none
deriving DecidableEq, Repr

/-- The rejoin match of the JOIN handler when both seats are occupied:
`current.players.X.name === name ? "X" : current.players.O.name === name ?
"O" : null`. -/
def rejoinSeat (s : GameState) (name : String) : Option Seat :=
  match s.playersX, s.playersO with
  | some px, some po =>
    if px.name = name then some Seat.X
    else if po.name = name then some Seat.O
    else none
  | _, _ => none

/-- The seat reported after `assignSeat`:
`(next.players.O && next.players.O.name === name) ? "O" : "X"`. -/
def seatFor (next : GameState) (name : String) : Seat :=
  match next.playersO with
  | some po => if po.name = name then Seat.O else Seat.X
  | none => Seat.X

/-- The retry loop of the JOIN handler (`for attempt in 0..4`), one recursion
step per attempt; the first argument is the remaining attempts, the second
the current attempt index. Exhausting the loop falls through with nothing
sent, exactly as the source does. -/
def joinAttempts (env : Env) (self gameId name : String) (st : GameState) :
    Nat → Nat → HandlerResult
  | 0, _ => {}
  | rem + 1, k =>
    let key := gameKey gameId
    let current := (env.readAt k).getD st
    if current.status = Status.finished then
      { sent := [S2CMsg.error "Game already finished"],
        trace := [StoreOp.watch key, StoreOp.unwatch] }
    else if current.playersX.isSome ∧ current.playersO.isSome then
      match rejoinSeat current name with
      | none =>
        { sent := [S2CMsg.error "Game already has two players"],
          trace := [StoreOp.watch key, StoreOp.unwatch] }
      | some seat =>
        { sent := [S2CMsg.assigned seat name, S2CMsg.update current],
          trace := [StoreOp.watch key] }
    else
      match assignSeat current { id := env.freshId k, name := name } with
      | Except.error e =>
        { sent := [S2CMsg.error e], trace := [StoreOp.watch key] }
      | Except.ok next =>
        let seatToYou := seatFor next name
        if env.commitOk k then
          { sent := [S2CMsg.assigned seatToYou name, S2CMsg.update next],
            published := [{ type := FEDSTATE, state := next,
                            originId := self, eventId := env.freshEvent k }],
            trace := [StoreOp.watch key, StoreOp.txExec key next true,
                      StoreOp.rawSet key next],
            committed := some next }
        else
          let rest := joinAttempts env self gameId name st rem (k + 1)
          { rest with
              trace := StoreOp.watch key :: StoreOp.txExec key next false
                         :: rest.trace }

/-- Per-process fan-out bookkeeping: `clientsByGame`, mapping a room id to
the set of local connections (connections are identified by `Nat`). -/
def Registry := String → List Nat

/-- `ensureGameSet(gameId).add(ws)` (Set semantics: no duplicate entry). -/
def addConn (r : Registry) (gameId : String) (ws : Nat) : Registry :=
  fun g =>
    if g = gameId then (if ws ∈ r gameId then r gameId else r gameId ++ [ws])
    else r g

/-- The close handler operation `set.delete(ws)` on the room of the connection. -/
def removeConn (r : Registry) (gameId : String) (ws : Nat) : Registry :=
  fun g => if g = gameId then (r gameId).filter (fun w => decide (w ≠ ws)) else r g

/-- A process with no local connections registered. -/
def emptyRegistry : Registry := fun _ => []

/-- The connections `broadcastLocal(gameId, _)` actually writes to: every
registered connection whose socket is open. -/
def broadcastRecipients (r : Registry) (isOpen : Nat → Bool) (gameId : String) :
    List Nat :=
  (r gameId).filter isOpen

/-- The JOIN message handler: reject a missing gameId/name (the empty
string models a falsy field), otherwise register the connection in the
fan-out set of the room, load the pre-loop state, and run the bounded retry
loop. Returns what was emitted together with the updated registry. -/
def joinHandler (env : Env) (self gameId name : String)
    (registry : Registry) (ws : Nat) : HandlerResult × Registry :=
  if gameId = "" ∨ name = "" then
    ({ sent := [S2CMsg.error "JOIN requires gameId and name"] }, registry)
  else
    let registry' := addConn registry gameId ws
    let st := env.preRead.getD (initialState gameId)
    (joinAttempts env self gameId name st 5 0, registry')

/-- The retry loop of the MOVE handler (`for attempt in 0..7`), one recursion
step per attempt. Exhausting the loop sends "Move conflicted, try again". -/
def moveAttempts (env : Env) (self gameId : String) (seat : Seat)
    (row col : Int) : Nat → Nat → HandlerResult
  | 0, _ => { sent := [S2CMsg.error "Move conflicted, try again"] }
  | rem + 1, k =>
    let key := gameKey gameId
    match env.readAt k with
    | none =>
      { sent := [S2CMsg.error "Game not found"],
        trace := [StoreOp.watch key, StoreOp.unwatch] }
    | some current =>
      match applyMove current seat row col with
      | Except.error e =>
        { sent := [S2CMsg.error e],
          trace := [StoreOp.watch key, StoreOp.unwatch] }
      | Except.ok next =>
        if env.commitOk k then
          { sent := [],
            broadcasts := [(gameId, S2CMsg.update next)],
            published := [{ type := FEDSTATE, state := next,
                            originId := self, eventId := env.freshEvent k }],
            trace := [StoreOp.watch key, StoreOp.txExec key next true,
                      StoreOp.rawSet key next],
            committed := some next }
        else
          let rest := moveAttempts env self gameId seat row col rem (k + 1)
          { rest with
              trace := StoreOp.watch key :: StoreOp.txExec key next false
                         :: rest.trace }

/-- The MOVE message handler for a joined connection whose registered
meta is `(gameId, seat)`. -/
def moveHandler (env : Env) (self gameId : String) (seat : Seat)
    (row col : Int) : HandlerResult :=
  moveAttempts env self gameId seat row col 8 0

/-- The pub/sub subscription callback installed by `ensureSubscribed`:
drop non-state envelopes, drop envelopes whose `originId` is this
own identity of the process, otherwise broadcast an update to the embedded
room of the embedded state. `some (room, msg)` is the resulting `broadcastLocal` call. -/
def subCallback (self : String) (e : Envelope) : Option (String × S2CMsg) :=
  if e.type ≠ FEDSTATE then none
  else if e.originId = self then none
  else some (e.state.gameId, S2CMsg.update e.state)

/-- Does the trace ever apply an unconditional `rawSet` to the key while a
record for the key already exists in the store? (The store content is
tracked from `start` through committed `txExec` and `rawSet` writes.) -/
def rawSetHitsExisting (key : String) :
    Option GameState → List StoreOp → Bool
  | _, [] => false
  | st, StoreOp.txExec k v true :: rest =>
    rawSetHitsExisting key (if k = key then some v else st) rest
  | st, StoreOp.rawSet k v :: rest =>
    if k = key ∧ st.isSome then true
    else rawSetHitsExisting key (if k = key then some v else st) rest
  | st, _ :: rest => rawSetHitsExisting key st rest

/-- Every `rawSet` in the trace immediately follows a successful `txExec`
of the same key and the same value (it merely re-writes the record the CAS
commit just applied, as `saveStateAndPublish` does). -/
def rawOnlyAfterCommit : List StoreOp → Bool
  | [] => true
  | StoreOp.txExec k v true :: StoreOp.rawSet k2 v2 :: rest =>
    if k = k2 ∧ v = v2 then rawOnlyAfterCommit rest else false
  | StoreOp.rawSet _ _ :: _ => false
  | _ :: rest => rawOnlyAfterCommit rest

/-- Is the operation a `watch`? -/
def isWatch : StoreOp → Bool
  | StoreOp.watch _ => true
  | _ => false

/-- Number of `watch` operations in a trace: one per loop attempt, so it
counts how many retry attempts a handler actually made. -/
def countWatch (t : List StoreOp) : Nat := (t.filter isWatch).length

/-- An accepted-mutation request at the engine level: a seat assignment or
a move. -/
inductive Op where
  | join (p : Player)
  | move (seat : Seat) (row col : Int)

/-- Run one engine operation. -/
def runOp (s : GameState) : Op → Except String GameState
  | Op.join p => assignSeat s p
  | Op.move seat row col => applyMove s seat row col

/-- Run a sequence of engine operations, `none` unless every one of them
is accepted. -/
def runOps : GameState → List Op → Option GameState
  | s, [] => some s
  | s, op :: rest =>
    match runOp s op with
    | Except.ok s2 => runOps s2 rest
    | Except.error _ => none

/-- The first player of the worked examples. -/
def aliceP : Player := { id := "p1", name := "Alice" }

/-- The second player of the worked examples. -/
def bobP : Player := { id := "p2", name := "Bob" }

/-- A room with only Alice seated at X (waiting). -/
def waitingAlice : GameState :=
  (assignSeat (initialState "g") aliceP).toOption.getD (initialState "g")

/-- A running room with Alice at X and Bob at O. -/
def runningPair : GameState :=
  (assignSeat waitingAlice bobP).toOption.getD waitingAlice

/-- The running room after the single move X(0,0). -/
def afterX00 : GameState :=
  (applyMove runningPair Seat.X 0 0).toOption.getD runningPair

/-- The room after X(0,0), O(1,0), X(0,1), O(1,1), X(0,2): X won. -/
def finishedX : GameState :=
  ((((applyMove runningPair Seat.X 0 0).toOption.bind fun a =>
      (applyMove a Seat.O 1 0).toOption).bind fun a =>
      (applyMove a Seat.X 0 1).toOption).bind fun a =>
      (applyMove a Seat.O 1 1).toOption).bind (fun a =>
      (applyMove a Seat.X 0 2).toOption) |>.getD runningPair

/-- An environment in which every read finds the given record and every
CAS commit succeeds (a request running without contention). -/
def commitEnv (st : Option GameState) : Env :=
  { preRead := st, readAt := fun _ => st, commitOk := fun _ => true,
    freshId := fun k => "fresh" ++ toString k,
    freshEvent := fun k => "ev" ++ toString k }

/-- An environment in which the room is absent and every CAS commit
aborts: maximal write contention on an empty room. -/
def allAbortJoinEnv : Env :=
  { preRead := none, readAt := fun _ => none, commitOk := fun _ => false,
    freshId := fun k => "fresh" ++ toString k,
    freshEvent := fun k => "ev" ++ toString k }

/-- An environment in which every read finds the running two-player room
and every CAS commit aborts: maximal write contention on a move. -/
def allAbortMoveEnv : Env :=
  { preRead := some runningPair, readAt := fun _ => some runningPair,
    commitOk := fun _ => false,
    freshId := fun k => "fresh" ++ toString k,
    freshEvent := fun k => "ev" ++ toString k }

/-- Scenario C7, step 1: Alice joins the absent room. -/
def c7join1 : HandlerResult :=
  (joinHandler (commitEnv none) "srv" "g" "Alice" emptyRegistry 0).1

/-- State committed by the first join. -/
def c7s1 : GameState := c7join1.committed.getD (initialState "g")

/-- Scenario C7, step 2: Bob joins the one-player room. -/
def c7join2 : HandlerResult :=
  (joinHandler (commitEnv (some c7s1)) "srv" "g" "Bob" emptyRegistry 1).1

/-- State committed by the second join. -/
def c7s2 : GameState := c7join2.committed.getD c7s1

/-- One contention-free MOVE request, returning the committed state. -/
def c7step (st : GameState) (seat : Seat) (row col : Int) : GameState :=
  (moveHandler (commitEnv (some st)) "srv" "g" seat row col).committed.getD st

/-- Scenario C7 after the five moves X(0,0), O(1,0), X(0,1), O(1,1), X(0,2). -/
def c7s7 : GameState :=
  c7step (c7step (c7step (c7step (c7step c7s2 Seat.X 0 0)
    Seat.O 1 0) Seat.X 0 1) Seat.O 1 1) Seat.X 0 2

/-- A successful `assignSeat` increments the version by exactly 1. -/
lemma assignSeat_version (s : GameState) (p : Player) (s2 : GameState)
    (h : assignSeat s p = Except.ok s2) : s2.version = s.version + 1 := by
  cases hx : s.playersX with
  | none => simp [assignSeat, hx] at h; subst h; rfl
  | some q =>
    cases ho : s.playersO with
    | none => simp [assignSeat, hx, ho] at h; subst h; rfl
    | some q2 => simp [assignSeat, hx, ho] at h

/-- A successful `applyMove` increments the version by exactly 1. -/
lemma applyMove_version (s : GameState) (seat : Seat) (row col : Int)
    (s2 : GameState) (h : applyMove s seat row col = Except.ok s2) :
    s2.version = s.version + 1 := by
  cases hv : validateMove s seat row col with
  | some e => simp [applyMove, hv] at h
  | none =>
    cases hw : checkWinner (setCell s.board row.toNat col.toNat (some seat)) with
    | none => simp [applyMove, hv, hw] at h; subst h; rfl
    | some o =>
      cases o with
      | draw => simp [applyMove, hv, hw] at h; subst h; rfl
      | seat w => simp [applyMove, hv, hw] at h; subst h; rfl

/-- Running a sequence of accepted operations adds its length to the
version. -/
lemma runOps_version (ops : List Op) : ∀ s s2 : GameState,
    runOps s ops = some s2 → s2.version = s.version + ops.length := by
  induction ops with
  | nil => intro s s2 h; simp [runOps] at h; subst h; rfl
  | cons op rest ih =>
    intro s s2 h
    cases hop : runOp s op with
    | error e => rw [runOps, hop] at h; exact absurd h (by simp)
    | ok s1 =>
      rw [runOps, hop] at h
      have h1 : s1.version = s.version + 1 := by
        cases op with
        | join p => exact assignSeat_version s p s1 hop
        | move seat row col => exact applyMove_version s seat row col s1 hop
      have h2 := ih s1 s2 h
      rw [h2, h1, List.length_cons]
      omega

/-- A valid move is accepted by `applyMove`. -/
lemma applyMove_ok_of_valid (s : GameState) (seat : Seat) (row col : Int)
    (h : validateMove s seat row col = none) :
    ∃ nx, applyMove s seat row col = Except.ok nx := by
  cases hw : checkWinner (setCell s.board row.toNat col.toNat (some seat)) with
  | none =>
    exact ⟨{ s with board := setCell s.board row.toNat col.toNat (some seat),
                    nextTurn := otherSeat seat, version := s.version + 1 },
           by simp [applyMove, h, hw]⟩
  | some o =>
    cases o with
    | draw =>
      exact ⟨{ s with board := setCell s.board row.toNat col.toNat (some seat),
                      status := Status.finished, winner := some Outcome.draw,
                      version := s.version + 1 },
             by simp [applyMove, h, hw]⟩
    | seat w =>
      exact ⟨{ s with board := setCell s.board row.toNat col.toNat (some seat),
                      status := Status.finished,
                      winner := some (Outcome.seat w),
                      version := s.version + 1 },
             by simp [applyMove, h, hw]⟩

/-- Claim C6. Every accepted mutation — a seat assignment or a legal
move — returns a state whose version is exactly one more; consequently a
sequence of n accepted operations from `initialState` (version 0) ends at
version n, skipping and repeating nothing. -/
theorem c6_version_increment :
    (∀ s p s2, assignSeat s p = Except.ok s2 → s2.version = s.version + 1) ∧
    (∀ s seat row col s2, applyMove s seat row col = Except.ok s2 →
      s2.version = s.version + 1) ∧
    (∀ (gid : String) (ops : List Op) (s : GameState),
      runOps (initialState gid) ops = some s → s.version = ops.length) := by
  refine ⟨assignSeat_version, applyMove_version, ?_⟩
  intro gid ops s h
  have := runOps_version ops (initialState gid) s h
  simpa [initialState] using this

/-- Witness for C6: Alice then Bob joining from the initial state is two
accepted operations and ends at version 2. -/
theorem c6_version_increment_witness :
    ((runOps (initialState "g") [Op.join aliceP, Op.join bobP]).getD
      (initialState "g")).version = 2 :=
  c6_version_increment.2.2 "g" [Op.join aliceP, Op.join bobP] _ (by decide)

/-- A MOVE attempt whose read finds a state the engine rejects stops the
loop at once: the error is sent, the watch is released, nothing is
written. -/
lemma moveAttempts_terminal (env : Env) (self gameId : String) (seat : Seat)
    (row col : Int) (s : GameState) (err : String) (rem k : Nat)
    (hread : env.readAt k = some s)
    (hv : validateMove s seat row col = some err) :
    moveAttempts env self gameId seat row col (rem + 1) k =
      { sent := [S2CMsg.error err],
        trace := [StoreOp.watch (gameKey gameId), StoreOp.unwatch] } := by
  have happ : applyMove s seat row col = Except.error err := by
    simp [applyMove, hv]
  simp only [moveAttempts, hread, happ]

/-- When the engine accepts the move at every re-read but the commit
aborts on every attempt, the MOVE loop runs all its attempts, commits
nothing, broadcasts nothing, and only after exhaustion sends the single
conflict message. -/
lemma moveAttempts_all_abort (env : Env) (self gameId : String) (seat : Seat)
    (row col : Int) : ∀ rem k : Nat,
    (∀ j, j < rem → env.commitOk (k + j) = false) →
    (∀ j, j < rem → ∃ s, env.readAt (k + j) = some s ∧
      validateMove s seat row col = none) →
    (moveAttempts env self gameId seat row col rem k).sent =
        [S2CMsg.error "Move conflicted, try again"] ∧
    (moveAttempts env self gameId seat row col rem k).committed = none ∧
    (moveAttempts env self gameId seat row col rem k).broadcasts = [] ∧
    countWatch (moveAttempts env self gameId seat row col rem k).trace = rem := by
  intro rem
  induction rem with
  | zero => intro k _ _; exact ⟨rfl, rfl, rfl, rfl⟩
  | succ n ih =>
    intro k h1 h2
    obtain ⟨s, hs, hv⟩ := h2 0 (Nat.succ_pos n)
    obtain ⟨nx, hnx⟩ := applyMove_ok_of_valid s seat row col hv
    have hs0 : env.readAt k = some s := by simpa using hs
    have hc0 : env.commitOk k = false := by
      have := h1 0 (Nat.succ_pos n); simpa using this
    have ihk := ih (k + 1)
      (fun j hj => by
        have := h1 (j + 1) (Nat.succ_lt_succ hj)
        rwa [show k + (j + 1) = k + 1 + j by omega] at this)
      (fun j hj => by
        have := h2 (j + 1) (Nat.succ_lt_succ hj)
        rwa [show k + (j + 1) = k + 1 + j by omega] at this)
    simp only [moveAttempts, hs0, hnx, hc0, Bool.false_eq_true, if_false]
    refine ⟨ihk.1, ihk.2.1, ihk.2.2.1, ?_⟩
    simp only [countWatch, List.filter_cons, isWatch]
    simpa [countWatch] using ihk.2.2.2

/-- Any violated precondition makes `validateMove` return the message of
the first failing check, in source order. -/
lemma validateMove_some_of_viol (s : GameState) (seat : Seat) (row col : Int)
    (h : s.status ≠ Status.running ∨ seat ≠ s.nextTurn ∨
         (row < 0 ∨ 3 ≤ row ∨ col < 0 ∨ 3 ≤ col) ∨
         cellAt s.board row.toNat col.toNat ≠ none) :
    ∃ err, validateMove s seat row col = some err ∧
      ((s.status ≠ Status.running ∧ err = "Game is not running") ∨
       (s.status = Status.running ∧ seat ≠ s.nextTurn ∧ err = "Not your turn") ∨
       (s.status = Status.running ∧ seat = s.nextTurn ∧
         (row < 0 ∨ 3 ≤ row ∨ col < 0 ∨ 3 ≤ col) ∧ err = "Out of bounds") ∨
       (s.status = Status.running ∧ seat = s.nextTurn ∧
         ¬(row < 0 ∨ 3 ≤ row ∨ col < 0 ∨ 3 ≤ col) ∧
         cellAt s.board row.toNat col.toNat ≠ none ∧
         err = "Cell not empty")) := by
  by_cases h1 : s.status = Status.running
  · by_cases h2 : seat = s.nextTurn
    · by_cases h3 : row < 0 ∨ 3 ≤ row ∨ col < 0 ∨ 3 ≤ col
      · exact ⟨"Out of bounds", by simp [validateMove, h1, h2, h3],
          Or.inr (Or.inr (Or.inl ⟨h1, h2, h3, rfl⟩))⟩
      · have h4 : cellAt s.board row.toNat col.toNat ≠ none := by
          rcases h with h | h | h | h
          · exact absurd h1 h
          · exact absurd h2 h
          · exact absurd h h3
          · exact h
        exact ⟨"Cell not empty", by simp [validateMove, h1, h2, h3, h4],
          Or.inr (Or.inr (Or.inr ⟨h1, h2, h3, h4, rfl⟩))⟩
    · exact ⟨"Not your turn", by simp [validateMove, h1, h2],
        Or.inr (Or.inl ⟨h1, h2, rfl⟩)⟩
  · exact ⟨"Game is not running", by simp [validateMove, h1], Or.inl ⟨h1, rfl⟩⟩

/-- Claim C5. A move violating a GameEngine precondition — not running,
wrong turn, out-of-bounds coordinates, or an occupied cell — makes
`applyMove` fail with the message of that specific violation; the MOVE
handler sends exactly that error, retries nothing (one watch, then
unwatch), commits nothing, and leaves the stored record, version
included, unchanged. -/
theorem c5_invalid_move_terminal (env : Env) (self gameId : String)
    (seat : Seat) (row col : Int) (s : GameState)
    (hread : env.readAt 0 = some s)
    (hviol : s.status ≠ Status.running ∨ seat ≠ s.nextTurn ∨
             (row < 0 ∨ 3 ≤ row ∨ col < 0 ∨ 3 ≤ col) ∨
             cellAt s.board row.toNat col.toNat ≠ none) :
    ∃ err, validateMove s seat row col = some err ∧
      applyMove s seat row col = Except.error err ∧
      (moveHandler env self gameId seat row col).sent = [S2CMsg.error err] ∧
      (moveHandler env self gameId seat row col).committed = none ∧
      (moveHandler env self gameId seat row col).trace =
        [StoreOp.watch (gameKey gameId), StoreOp.unwatch] ∧
      applyTrace (gameKey gameId) (some s)
        (moveHandler env self gameId seat row col).trace = some s ∧
      ((s.status ≠ Status.running ∧ err = "Game is not running") ∨
       (s.status = Status.running ∧ seat ≠ s.nextTurn ∧ err = "Not your turn") ∨
       (s.status = Status.running ∧ seat = s.nextTurn ∧
         (row < 0 ∨ 3 ≤ row ∨ col < 0 ∨ 3 ≤ col) ∧ err = "Out of bounds") ∨
       (s.status = Status.running ∧ seat = s.nextTurn ∧
         ¬(row < 0 ∨ 3 ≤ row ∨ col < 0 ∨ 3 ≤ col) ∧
         cellAt s.board row.toNat col.toNat ≠ none ∧
         err = "Cell not empty")) := by
  obtain ⟨err, hv, hchar⟩ := validateMove_some_of_viol s seat row col hviol
  have h8 : moveHandler env self gameId seat row col =
      moveAttempts env self gameId seat row col (7 + 1) 0 := rfl
  have hterm := moveAttempts_terminal env self gameId seat row col s err 7 0
    hread hv
  refine ⟨err, hv, by simp [applyMove, hv], ?_, ?_, ?_, ?_, hchar⟩
  · rw [h8, hterm]
  · rw [h8, hterm]
  · rw [h8, hterm]
  · rw [h8, hterm]
    rfl

/-- Witness for C5: in the running two-player room after X(0,0), the O
move at the occupied cell (0,0) is rejected as "Cell not empty" with no
state change. -/
theorem c5_invalid_move_terminal_witness :
    validateMove afterX00 Seat.O 0 0 = some "Cell not empty" ∧
    applyMove afterX00 Seat.O 0 0 = Except.error "Cell not empty" ∧
    (moveHandler (commitEnv (some afterX00)) "srv" "g" Seat.O 0 0).sent =
      [S2CMsg.error "Cell not empty"] ∧
    (moveHandler (commitEnv (some afterX00)) "srv" "g" Seat.O 0 0).committed =
      none ∧
    (moveHandler (commitEnv (some afterX00)) "srv" "g" Seat.O 0 0).trace =
      [StoreOp.watch (gameKey "g"), StoreOp.unwatch] ∧
    applyTrace (gameKey "g") (some afterX00)
      (moveHandler (commitEnv (some afterX00)) "srv" "g" Seat.O 0 0).trace =
      some afterX00 := by
  obtain ⟨err, hv, happ, hsent, hcom, htr, happly, hchar⟩ :=
    c5_invalid_move_terminal (commitEnv (some afterX00)) "srv" "g" Seat.O 0 0
      afterX00 rfl (by decide)
  have herr : err = "Cell not empty" := by
    rcases hchar with ⟨h, _⟩ | ⟨_, h, _⟩ | ⟨_, _, h, _⟩ | ⟨_, _, _, _, h⟩
    · exact absurd (by decide : afterX00.status = Status.running) h
    · exact absurd (by decide : Seat.O = afterX00.nextTurn) h
    · exact absurd h (by decide)
    · exact h
  subst herr
  exact ⟨hv, happ, hsent, hcom, htr, happly⟩

/-- Claim C3 (amended: the message is capitalized). When the engine
accepts the move at every re-read but the CAS commit aborts on all 8
attempts, the MOVE handler runs exactly 8 attempts (8 watches), commits
and broadcasts nothing mid-loop, and only after exhausting the bound
sends the single error "Move conflicted, try again". -/
theorem c3_move_conflict_exhaustion (env : Env) (self gameId : String)
    (seat : Seat) (row col : Int)
    (h1 : ∀ j, j < 8 → env.commitOk j = false)
    (h2 : ∀ j, j < 8 → ∃ s, env.readAt j = some s ∧
      validateMove s seat row col = none) :
    (moveHandler env self gameId seat row col).sent =
        [S2CMsg.error "Move conflicted, try again"] ∧
    (moveHandler env self gameId seat row col).committed = none ∧
    (moveHandler env self gameId seat row col).broadcasts = [] ∧
    countWatch (moveHandler env self gameId seat row col).trace = 8 := by
  have := moveAttempts_all_abort env self gameId seat row col 8 0
    (fun j hj => by simpa using h1 j hj)
    (fun j hj => by simpa using h2 j hj)
  simpa [moveHandler] using this

/-- Witness for C3: maximal contention on a legal X(0,0) move in the
running two-player room. -/
theorem c3_move_conflict_exhaustion_witness :
    (moveHandler allAbortMoveEnv "srv" "g" Seat.X 0 0).sent =
        [S2CMsg.error "Move conflicted, try again"] ∧
    (moveHandler allAbortMoveEnv "srv" "g" Seat.X 0 0).committed = none ∧
    (moveHandler allAbortMoveEnv "srv" "g" Seat.X 0 0).broadcasts = [] ∧
    countWatch (moveHandler allAbortMoveEnv "srv" "g" Seat.X 0 0).trace = 8 :=
  c3_move_conflict_exhaustion allAbortMoveEnv "srv" "g" Seat.X 0 0
    (fun _ _ => rfl) (fun _ _ => ⟨runningPair, rfl, by decide⟩)

/-- A JOIN attempt that reads a finished room stops at once with the
terminal error, releasing the watch. -/
lemma joinAttempts_finished (env : Env) (self gameId name : String)
    (st : GameState) (rem k : Nat) (s : GameState)
    (hread : env.readAt k = some s) (hfin : s.status = Status.finished) :
    joinAttempts env self gameId name st (rem + 1) k =
      { sent := [S2CMsg.error "Game already finished"],
        trace := [StoreOp.watch (gameKey gameId), StoreOp.unwatch] } := by
  simp only [joinAttempts, hread, Option.getD_some]
  rw [if_pos hfin]

/-- A JOIN attempt that reads a non-finished room with both seats
occupied and a matching name replies with that seat and the unchanged
state, writing nothing. -/
lemma joinAttempts_rejoin (env : Env) (self gameId name : String)
    (st : GameState) (rem k : Nat) (s : GameState) (seat : Seat)
    (hread : env.readAt k = some s) (hfin : s.status ≠ Status.finished)
    (hx : s.playersX.isSome) (ho : s.playersO.isSome)
    (hseat : rejoinSeat s name = some seat) :
    joinAttempts env self gameId name st (rem + 1) k =
      { sent := [S2CMsg.assigned seat name, S2CMsg.update s],
        trace := [StoreOp.watch (gameKey gameId)] } := by
  simp only [joinAttempts, hread, Option.getD_some]
  rw [if_neg hfin, if_pos (⟨hx, ho⟩ : _ ∧ _), hseat]

/-- A JOIN attempt that reads a non-finished room with both seats
occupied and no matching name stops with the terminal room-full error. -/
lemma joinAttempts_full (env : Env) (self gameId name : String)
    (st : GameState) (rem k : Nat) (s : GameState)
    (hread : env.readAt k = some s) (hfin : s.status ≠ Status.finished)
    (hx : s.playersX.isSome) (ho : s.playersO.isSome)
    (hseat : rejoinSeat s name = none) :
    joinAttempts env self gameId name st (rem + 1) k =
      { sent := [S2CMsg.error "Game already has two players"],
        trace := [StoreOp.watch (gameKey gameId), StoreOp.unwatch] } := by
  simp only [joinAttempts, hread, Option.getD_some]
  rw [if_neg hfin, if_pos (⟨hx, ho⟩ : _ ∧ _), hseat]

/-- A JOIN attempt that reads a joinable room and whose commit succeeds
assigns the seat, publishes the envelope, and answers the joiner. -/
lemma joinAttempts_commit (env : Env) (self gameId name : String)
    (st : GameState) (rem k : Nat) (s next : GameState)
    (hread : env.readAt k = some s) (hfin : s.status ≠ Status.finished)
    (hfree : ¬(s.playersX.isSome ∧ s.playersO.isSome))
    (hassign : assignSeat s { id := env.freshId k, name := name } =
      Except.ok next)
    (hcommit : env.commitOk k = true) :
    joinAttempts env self gameId name st (rem + 1) k =
      { sent := [S2CMsg.assigned (seatFor next name) name,
                 S2CMsg.update next],
        published := [{ type := FEDSTATE, state := next, originId := self,
                        eventId := env.freshEvent k }],
        trace := [StoreOp.watch (gameKey gameId),
                  StoreOp.txExec (gameKey gameId) next true,
                  StoreOp.rawSet (gameKey gameId) next],
        committed := some next } := by
  simp only [joinAttempts, hread, Option.getD_some]
  rw [if_neg hfin, if_neg hfree, hassign]
  simp [hcommit]

/-- A room with a free seat accepts `assignSeat`. -/
lemma assignSeat_ok_of_free (s : GameState) (p : Player)
    (hfree : ¬(s.playersX.isSome ∧ s.playersO.isSome)) :
    ∃ nx, assignSeat s p = Except.ok nx := by
  cases hx : s.playersX with
  | none =>
    exact ⟨{ s with playersX := some p, version := s.version + 1 },
           by simp [assignSeat, hx]⟩
  | some q =>
    cases ho : s.playersO with
    | none =>
      refine ⟨{ s with
        playersO := some p
        status := (if s.status = Status.waiting then Status.running
                   else s.status)
        version := s.version + 1 }, ?_⟩
      simp [assignSeat, hx, ho]
    | some q2 => exact absurd ⟨by simp [hx], by simp [ho]⟩ hfree

/-- With a well-formed request the JOIN handler runs the 5-attempt loop
on the pre-loop read, and its registry result adds the connection. -/
lemma joinHandler_eq (env : Env) (self gameId name : String)
    (registry : Registry) (ws : Nat)
    (hgid : gameId ≠ "") (hname : name ≠ "") :
    joinHandler env self gameId name registry ws =
      (joinAttempts env self gameId name
        (env.preRead.getD (initialState gameId)) 5 0,
       addConn registry gameId ws) := by
  unfold joinHandler
  rw [if_neg (by simp [hgid, hname])]

/-- Claim C4 (amended: the room must also not be finished). In a
non-finished room with both seats occupied, a join under a name already
holding a seat is answered with exactly that seat (X when the X player
has the name, else O) and the unchanged state; nothing is committed, the
single watch is the whole trace, and replaying the trace leaves the
stored record — its version and seats included — unchanged. -/
theorem c4_rejoin_idempotent (env : Env) (self gameId name : String)
    (registry : Registry) (ws : Nat) (s : GameState) (px po : Player)
    (hgid : gameId ≠ "") (hname : name ≠ "")
    (hread : env.readAt 0 = some s) (hfin : s.status ≠ Status.finished)
    (hx : s.playersX = some px) (ho : s.playersO = some po)
    (hmatch : px.name = name ∨ po.name = name) :
    (joinHandler env self gameId name registry ws).1.sent =
      [S2CMsg.assigned (if px.name = name then Seat.X else Seat.O) name,
       S2CMsg.update s] ∧
    (joinHandler env self gameId name registry ws).1.committed = none ∧
    (joinHandler env self gameId name registry ws).1.trace =
      [StoreOp.watch (gameKey gameId)] ∧
    applyTrace (gameKey gameId) (some s)
      (joinHandler env self gameId name registry ws).1.trace = some s := by
  have hseat : rejoinSeat s name =
      some (if px.name = name then Seat.X else Seat.O) := by
    by_cases hpx : px.name = name
    · simp [rejoinSeat, hx, ho, hpx]
    · have hpo : po.name = name := hmatch.resolve_left hpx
      simp [rejoinSeat, hx, ho, hpx, hpo]
  have hstep := joinAttempts_rejoin env self gameId name
    (env.preRead.getD (initialState gameId)) 4 0 s
    (if px.name = name then Seat.X else Seat.O)
    hread hfin (by simp [hx]) (by simp [ho]) hseat
  rw [show (4 : Nat) + 1 = 5 from rfl] at hstep
  rw [joinHandler_eq env self gameId name registry ws hgid hname]
  rw [hstep]
  exact ⟨rfl, rfl, rfl, rfl⟩

/-- Witness for C4: Bob rejoining the running two-player room is answered
with seat O and the unchanged state. -/
theorem c4_rejoin_idempotent_witness :
    (joinHandler (commitEnv (some runningPair)) "srv" "g" "Bob"
      emptyRegistry 3).1.sent =
      [S2CMsg.assigned (if aliceP.name = "Bob" then Seat.X else Seat.O) "Bob",
       S2CMsg.update runningPair] ∧
    (joinHandler (commitEnv (some runningPair)) "srv" "g" "Bob"
      emptyRegistry 3).1.committed = none ∧
    (joinHandler (commitEnv (some runningPair)) "srv" "g" "Bob"
      emptyRegistry 3).1.trace = [StoreOp.watch (gameKey "g")] ∧
    applyTrace (gameKey "g") (some runningPair)
      (joinHandler (commitEnv (some runningPair)) "srv" "g" "Bob"
        emptyRegistry 3).1.trace = some runningPair :=
  c4_rejoin_idempotent (commitEnv (some runningPair)) "srv" "g" "Bob"
    emptyRegistry 3 runningPair aliceP bobP (by decide) (by decide) rfl
    (by decide) (by decide) (by decide) (Or.inr (by decide))

/-- Claim C1 (code bug evidence). A join request against an absent room
whose CAS commit aborts on all 5 retry attempts ends with NO reply at all:
the JOIN loop falls through without sending any message (no conflict
error), publishing nothing and broadcasting nothing — the spec says a
conflict error must be surfaced, as the MOVE handler does. -/
theorem c1_join_retry_exhaustion_sends_nothing :
    (joinHandler allAbortJoinEnv "srv" "g" "Alice" emptyRegistry 0).1.sent = [] ∧
    (joinHandler allAbortJoinEnv "srv" "g" "Alice" emptyRegistry 0).1.broadcasts = [] ∧
    (joinHandler allAbortJoinEnv "srv" "g" "Alice" emptyRegistry 0).1.published = [] ∧
    (joinHandler allAbortJoinEnv "srv" "g" "Alice" emptyRegistry 0).1.committed = none := by
  decide

/-- Claim C2 counterexample. In a successful MOVE commit the handler does
apply an unconditional raw `set` (inside `saveStateAndPublish`) to the
room key while a record for it already exists in the store, outside any
watch/transaction — refuting "an unconditional raw set is never applied
to an existing record outside a watch/transaction context". -/
theorem c2_counterexample_raw_set_on_existing :
    rawSetHitsExisting (gameKey "g") (some runningPair)
      (moveHandler (commitEnv (some runningPair)) "srv" "g" Seat.X 0 0).trace = true := by
  decide

/-- Claim C3 counterexample. When all 8 MOVE attempts abort, the message
actually sent is "Move conflicted, try again" (capital M), not the
claimed "move conflicted, try again". -/
theorem c3_counterexample_message_case :
    (moveHandler allAbortMoveEnv "srv" "g" Seat.X 0 0).sent =
      [S2CMsg.error "Move conflicted, try again"] ∧
    S2CMsg.error "Move conflicted, try again" ≠
      S2CMsg.error "move conflicted, try again" := by
  decide

/-- Claim C4 counterexample. In a finished room with both seats occupied,
rejoining under the name "Alice" (who holds seat X) is NOT answered with
her seat: the handler replies "Game already finished" — refuting the
claim for room states whose status is finished. -/
theorem c4_counterexample_finished_rejoin :
    (joinHandler (commitEnv (some finishedX)) "srv" "g" "Alice" emptyRegistry 0).1.sent =
      [S2CMsg.error "Game already finished"] ∧
    S2CMsg.assigned Seat.X "Alice" ∉
      (joinHandler (commitEnv (some finishedX)) "srv" "g" "Alice" emptyRegistry 0).1.sent := by
  decide

/-- Claim C7. From an absent room: Alice is assigned seat X; Bob is
assigned seat O and the game becomes running; the moves X(0,0), O(1,0),
X(0,1), O(1,1), X(0,2) end the game finished with winner X. -/
theorem c7_row_win_scenario :
    c7join1.sent.head? = some (S2CMsg.assigned Seat.X "Alice") ∧
    c7join2.sent.head? = some (S2CMsg.assigned Seat.O "Bob") ∧
    c7s2.status = Status.running ∧
    c7s7.status = Status.finished ∧
    c7s7.winner = some (Outcome.seat Seat.X) := by
  decide

/-- Claim C8. A join whose commit succeeds replies only to the joining
connection and publishes on the bus: no `broadcastLocal` call is made,
the one published envelope carries the handling process as origin, and
the subscription callback of that same process discards it — so other
local connections in the room receive nothing for this join. -/
theorem c8_join_no_local_broadcast (env : Env) (self gameId name : String)
    (registry : Registry) (ws : Nat) (s : GameState)
    (hgid : gameId ≠ "") (hname : name ≠ "")
    (hread : env.readAt 0 = some s) (hfin : s.status ≠ Status.finished)
    (hfree : ¬(s.playersX.isSome ∧ s.playersO.isSome))
    (hcommit : env.commitOk 0 = true) :
    ∃ next, (joinHandler env self gameId name registry ws).1.committed = some next ∧
      (joinHandler env self gameId name registry ws).1.sent =
        [S2CMsg.assigned (seatFor next name) name, S2CMsg.update next] ∧
      (joinHandler env self gameId name registry ws).1.broadcasts = [] ∧
      (joinHandler env self gameId name registry ws).1.published =
        [{ type := FEDSTATE, state := next, originId := self,
           eventId := env.freshEvent 0 }] ∧
      ∀ e ∈ (joinHandler env self gameId name registry ws).1.published,
        subCallback self e = none := by
  obtain ⟨next, hassign⟩ :=
    assignSeat_ok_of_free s { id := env.freshId 0, name := name } hfree
  have hstep := joinAttempts_commit env self gameId name
    (env.preRead.getD (initialState gameId)) 4 0 s next
    hread hfin hfree hassign hcommit
  rw [show (4 : Nat) + 1 = 5 from rfl] at hstep
  rw [joinHandler_eq env self gameId name registry ws hgid hname]
  dsimp only
  rw [hstep]
  refine ⟨next, rfl, rfl, rfl, rfl, ?_⟩
  intro e he
  rw [List.mem_singleton] at he
  subst he
  simp [subCallback]

/-- Witness for C8: Alice joining the waiting empty room with a clean
commit triggers no local broadcast. -/
theorem c8_join_no_local_broadcast_witness :
    (joinHandler (commitEnv (some (initialState "g"))) "srv" "g" "Alice"
      emptyRegistry 0).1.broadcasts = [] := by
  obtain ⟨next, h1, h2, h3, h4, h5⟩ :=
    c8_join_no_local_broadcast (commitEnv (some (initialState "g"))) "srv"
      "g" "Alice" emptyRegistry 0 (initialState "g") (by decide) (by decide)
      rfl (by decide) (by decide) rfl
  exact h3

/-- Claim C10. In a room where only seat X is occupied (hence not
finished), a join under the same display name as the X player is not
answered with seat X: a fresh player identity with that name is seated at
O and the reply assigns seat O. -/
theorem c10_same_name_gets_seat_O (env : Env) (self gameId : String)
    (registry : Registry) (ws : Nat) (s : GameState) (px : Player)
    (hgid : gameId ≠ "") (hname : px.name ≠ "")
    (hread : env.readAt 0 = some s) (hfin : s.status ≠ Status.finished)
    (hx : s.playersX = some px) (ho : s.playersO = none)
    (hcommit : env.commitOk 0 = true) :
    ∃ next,
      (joinHandler env self gameId px.name registry ws).1.committed = some next ∧
      next.playersX = some px ∧
      next.playersO = some { id := env.freshId 0, name := px.name } ∧
      (joinHandler env self gameId px.name registry ws).1.sent =
        [S2CMsg.assigned Seat.O px.name, S2CMsg.update next] ∧
      Seat.O ≠ Seat.X := by
  have hassign : assignSeat s { id := env.freshId 0, name := px.name } =
      Except.ok { s with
        playersO := some { id := env.freshId 0, name := px.name }
        status := (if s.status = Status.waiting then Status.running
                   else s.status)
        version := s.version + 1 } := by
    simp [assignSeat, hx, ho]
  have hstep := joinAttempts_commit env self gameId px.name
    (env.preRead.getD (initialState gameId)) 4 0 s _
    hread hfin (by simp [hx, ho]) hassign hcommit
  rw [show (4 : Nat) + 1 = 5 from rfl] at hstep
  rw [joinHandler_eq env self gameId px.name registry ws hgid hname]
  dsimp only
  rw [hstep]
  refine ⟨_, rfl, hx, rfl, ?_, by decide⟩
  have hseat : seatFor { s with
      playersO := some { id := env.freshId 0, name := px.name }
      status := (if s.status = Status.waiting then Status.running
                 else s.status)
      version := s.version + 1 } px.name = Seat.O := by
    simp [seatFor]
  rw [hseat]

/-- Witness for C10: "Alice" joining the room where only Alice holds X is
seated at O under a fresh identity. -/
theorem c10_same_name_gets_seat_O_witness :
    (joinHandler (commitEnv (some waitingAlice)) "srv" "g" aliceP.name
      emptyRegistry 0).1.sent.head? =
      some (S2CMsg.assigned Seat.O aliceP.name) := by
  obtain ⟨next, h1, h2, h3, h4, h5⟩ :=
    c10_same_name_gets_seat_O (commitEnv (some waitingAlice)) "srv" "g"
      emptyRegistry 0 waitingAlice aliceP (by decide) (by decide) rfl
      (by decide) (by decide) (by decide) rfl
  rw [h4]
  rfl

/-- The connection just added by `addConn` is in the fan-out set of the
room. -/
lemma mem_addConn_self (r : Registry) (g : String) (ws : Nat) :
    ws ∈ addConn r g ws g := by
  unfold addConn
  rw [if_pos rfl]
  by_cases h : ws ∈ r g
  · simp [h]
  · simp [h]

/-- `addConn` never removes a registered connection. -/
lemma mem_addConn_of_mem (r : Registry) (g g2 : String) (ws a : Nat)
    (h : a ∈ r g) : a ∈ addConn r g2 ws g := by
  unfold addConn
  by_cases hg : g = g2
  · subst hg
    rw [if_pos rfl]
    by_cases hw : ws ∈ r g
    · simpa [hw]
    · simp [hw, h]
  · rw [if_neg hg]
    exact h

/-- No JOIN request, whatever its outcome, removes an already registered
connection from a fan-out set. -/
lemma joinHandler_registry_mono (env : Env) (self gid2 name2 : String)
    (r : Registry) (ws2 : Nat) (g : String) (a : Nat) (h : a ∈ r g) :
    a ∈ (joinHandler env self gid2 name2 r ws2).2 g := by
  unfold joinHandler
  split
  · exact h
  · exact mem_addConn_of_mem r g gid2 ws2 a h

/-- Claim C9. A well-formed join request registers the connection in the
fan-out set of the room before the retry loop runs, whatever the outcome
(the environment, hence the rejection path taken, is arbitrary); while
open it is then a recipient of every local update broadcast for the room;
later joins never remove it; only the close-handler removal takes it
out. -/
theorem c9_join_registers_connection (env : Env) (self gameId name : String)
    (registry : Registry) (ws : Nat) (isOpen : Nat → Bool)
    (hgid : gameId ≠ "") (hname : name ≠ "") :
    ws ∈ (joinHandler env self gameId name registry ws).2 gameId ∧
    (isOpen ws = true →
      ws ∈ broadcastRecipients (joinHandler env self gameId name registry ws).2
        isOpen gameId) ∧
    (∀ env2 self2 gid2 name2 ws2, ws ∈
      (joinHandler env2 self2 gid2 name2
        ((joinHandler env self gameId name registry ws).2) ws2).2 gameId) ∧
    ws ∉ removeConn ((joinHandler env self gameId name registry ws).2)
      gameId ws gameId := by
  have hreg : (joinHandler env self gameId name registry ws).2 =
      addConn registry gameId ws := by
    rw [joinHandler_eq env self gameId name registry ws hgid hname]
  rw [hreg]
  have hmem := mem_addConn_self registry gameId ws
  refine ⟨hmem, ?_, ?_, ?_⟩
  · intro hop
    simp [broadcastRecipients, List.mem_filter, hmem, hop]
  · intro env2 self2 gid2 name2 ws2
    exact joinHandler_registry_mono env2 self2 gid2 name2 _ ws2 gameId ws hmem
  · simp [removeConn, List.mem_filter]

/-- Witness for C9: a join against the maximally contended empty room
(every commit aborts, so the joiner gets no reply at all) still leaves
the connection registered for the room. -/
theorem c9_join_registers_connection_witness :
    0 ∈ (joinHandler allAbortJoinEnv "srv" "g" "Alice" emptyRegistry 0).2 "g" :=
  (c9_join_registers_connection allAbortJoinEnv "srv" "g" "Alice"
    emptyRegistry 0 (fun _ => true) (by decide) (by decide)).1

/-- Every trace of the JOIN loop confines raw sets to the commit echo. -/
lemma joinAttempts_rawOnly (env : Env) (self gameId name : String)
    (st : GameState) : ∀ rem k : Nat,
    rawOnlyAfterCommit (joinAttempts env self gameId name st rem k).trace = true := by
  intro rem
  induction rem with
  | zero => intro k; rfl
  | succ n ih =>
    intro k
    simp only [joinAttempts]
    split
    · rfl
    · split
      · split
        · rfl
        · rfl
      · split
        · rfl
        · split
          · simp [rawOnlyAfterCommit]
          · simpa [rawOnlyAfterCommit] using ih (k + 1)

/-- Every trace of the MOVE loop confines raw sets to the commit echo. -/
lemma moveAttempts_rawOnly (env : Env) (self gameId : String) (seat : Seat)
    (row col : Int) : ∀ rem k : Nat,
    rawOnlyAfterCommit (moveAttempts env self gameId seat row col rem k).trace = true := by
  intro rem
  induction rem with
  | zero => intro k; rfl
  | succ n ih =>
    intro k
    simp only [moveAttempts]
    split
    · rfl
    · split
      · rfl
      · split
        · simp [rawOnlyAfterCommit]
        · simpa [rawOnlyAfterCommit] using ih (k + 1)

/-- Claim C2 (amended: the commit paths do issue a raw set, but only as
the echo in `saveStateAndPublish`). In every join and move request the
state transition is applied only through the watched multi/exec commit;
the only unconditional raw set a handler ever issues comes immediately
after a successful commit and re-writes exactly the key and value that
commit applied. -/
theorem c2_raw_set_only_commit_echo :
    (∀ env self gameId name registry ws, rawOnlyAfterCommit
      (joinHandler env self gameId name registry ws).1.trace = true) ∧
    (∀ env self gameId seat row col, rawOnlyAfterCommit
      (moveHandler env self gameId seat row col).trace = true) := by
  constructor
  · intro env self gameId name registry ws
    unfold joinHandler
    split
    · rfl
    · exact joinAttempts_rawOnly env self gameId name _ 5 0
  · intro env self gameId seat row col
    exact moveAttempts_rawOnly env self gameId seat row col 8 0

/-- Witness for C2 (amended) at a concrete contention-free move. -/
theorem c2_raw_set_only_commit_echo_witness :
    rawOnlyAfterCommit
      (moveHandler (commitEnv (some runningPair)) "srv" "g" Seat.X 0 0).trace =
      true :=
  c2_raw_set_only_commit_echo.2 (commitEnv (some runningPair)) "srv" "g"
    Seat.X 0 0

end TicTacTwo
